import Mathlib

/-!
Shallow embedding of `easytier/src/tunnel/websocket.rs`: the WebSocket-backed
tunnel transport (scheme classification, packet/message codec, listener and
connector state machines), together with theorems checking the natural-language
specification against it.
-/

deriving instance DecidableEq for Except

namespace EasyTier

/-- A parsed URL, as used by the tunnel layer: scheme, host, optional port.
Embeds the `url::Url` fields this module reads and writes
(`scheme()`, `set_port`, host). -/
structure Url where
  scheme : String
  host : String
  port : Option Nat
deriving Repr, DecidableEq

/-- `url::Url::set_port(Some(p))`: rewrite the port, leaving scheme and host
untouched (for the ws/wss URLs of this module the call always succeeds). -/
def Url.set_port (u : Url) (p : Nat) : Url :=
  { u with port := some p }

/-- The underlying `tokio_websockets::Error`, kept abstract: the tunnel code
only wraps it, never inspects it. -/
structure WsError where
  msg : String
deriving Repr, DecidableEq

/-- The `TunnelError` variants reachable from `websocket.rs`. -/
inductive TunnelError where
  /-- `TunnelError::InvalidProtocol(scheme)` -/
  | InvalidProtocol (scheme : String)
  /-- `TunnelError::WebSocketError(e)`: a transport-level read/write failure. -/
  | WebSocketError (e : WsError)
  /-- `TunnelError::InvalidPacket(desc)` -/
  | InvalidPacket (desc : String)
  /-- An OS-level error (resolution, socket setup, bind/listen/accept). -/
  | IoError (msg : String)
deriving Repr, DecidableEq

/-- `tokio_websockets::Message`: the transport's native message unit.
A close frame may carry an optional code and reason. -/
inductive Message where
  | binary (payload : List Nat)
  | text (s : String)
  | ping (payload : List Nat)
  | pong (payload : List Nat)
  | close (code : Option Nat) (reason : String)
deriving Repr, DecidableEq

/-- `Message::is_close()` -/
def Message.is_close : Message → Bool
  | .close _ _ => true
  | _ => false

/-- `Message::is_binary()` -/
def Message.is_binary : Message → Bool
  | .binary _ => true
  | _ => false

/-- `Message::into_payload()` viewed as bytes (`as_bytes`); for non-binary
frames this is whatever the frame carries, but the tunnel code only reads it
on binary messages. -/
def Message.into_payload : Message → List Nat
  | .binary p => p
  | .text s => s.toUTF8.toList.map UInt8.toNat
  | .ping p => p
  | .pong p => p
  | .close _ _ => []

/-- `format!("{:?}", msg)`: the debug rendering used as the `InvalidPacket`
description. Modelled structurally; the tunnel code treats it as an uninterpreted
description string. -/
def Message.describe : Message → String
  | .binary p => "Binary(" ++ toString p ++ ")"
  | .text s => "Text(" ++ s ++ ")"
  | .ping p => "Ping(" ++ toString p ++ ")"
  | .pong p => "Pong(" ++ toString p ++ ")"
  | .close c r => "Close(" ++ toString c ++ ", " ++ r ++ ")"

/-- `ZCPacketType`: only `DummyTunnel` is used by this module. -/
inductive ZCPacketType where
  | DummyTunnel
deriving Repr, DecidableEq

/-- Modelled from the spec: `ZCPacket` (`packet_def.rs` is not in src). The
spec treats the packet as "consumed as an opaque buffer type": a payload byte
buffer tagged with its packet type. -/
structure ZCPacket where
  payload : List Nat
  packet_type : ZCPacketType
deriving Repr, DecidableEq

/-- Modelled from the spec: `ZCPacket::tunnel_payload_bytes()` returns the
packet's payload bytes (the opaque buffer the tunnel moves). -/
def ZCPacket.tunnel_payload_bytes (p : ZCPacket) : List Nat :=
  p.payload

/-- Modelled from the spec: `ZCPacket::new_from_buf(buf, ty)` wraps a received
buffer as a packet of the given type; for `DummyTunnel` packets the tunnel
payload is the whole buffer. -/
def ZCPacket.new_from_buf (buf : List Nat) (ty : ZCPacketType) : ZCPacket :=
  ⟨buf, ty⟩

/-- `fn is_wss(addr: &url::Url) -> Result<bool, TunnelError>`:
"ws" is the insecure mode (`false`), "wss" the secure mode (`true`), and any
other scheme is an `InvalidProtocol` error carrying the scheme string. -/
def is_wss (addr : Url) : Except TunnelError Bool :=
  match addr.scheme with
  | "ws" => .ok false
  | "wss" => .ok true
  | _ => .error (.InvalidProtocol addr.scheme)

/-- `async fn sink_from_zc_packet<E>(msg: ZCPacket) -> Result<Message, E>`:
wrap the packet's tunnel payload bytes as a binary message. -/
def sink_from_zc_packet {E : Type} (msg : ZCPacket) : Except E Message :=
  .ok (.binary msg.tunnel_payload_bytes)

/-- `async fn map_from_ws_message(msg) -> Option<Result<ZCPacket, TunnelError>>`:
classify one received transport item. A read error becomes
`Some(Err(WebSocketError _))`; a close frame becomes `None`; a non-binary
message becomes `Some(Err(InvalidPacket _))`; a binary message becomes a
packet built from its payload. -/
def map_from_ws_message (msg : Except WsError Message) :
    Option (Except TunnelError ZCPacket) :=
  match msg with
  | .error e => some (.error (.WebSocketError e))
  | .ok m =>
    if m.is_close then
      none
    else if !m.is_binary then
      some (.error (.InvalidPacket m.describe))
    else
      some (.ok (ZCPacket.new_from_buf m.into_payload .DummyTunnel))

/-- `read.filter_map(map_from_ws_message)` applied to the finite trace of items
the underlying WebSocket stream yields on one connection: items mapped to
`none` are dropped, the rest are yielded in order. After a graceful close the
underlying stream yields nothing further, so a gracefully closed connection's
trace ends at its close frame. -/
def wsStreamToPackets : List (Except WsError Message) →
    List (Except TunnelError ZCPacket)
  | [] => []
  | item :: rest =>
    match map_from_ws_message item with
    | none => wsStreamToPackets rest
    | some r => r :: wsStreamToPackets rest

/-- A resolved socket address (`std::net::SocketAddr`): the tunnel code only
reads its port (and whether it is IPv4, for the connector's local bind). -/
structure SockAddr where
  is_ipv4 : Bool
  port : Nat
deriving Repr, DecidableEq

/-- `pub struct WSTunnelListener { addr: url::Url, listener: Option<TcpListener> }`.
The bound socket is represented by its OS-assigned local port. -/
structure WSTunnelListener where
  addr : Url
  listener : Option Nat
deriving Repr, DecidableEq

/-- `WSTunnelListener::new(addr)` -/
def WSTunnelListener.new (addr : Url) : WSTunnelListener :=
  { addr := addr, listener := none }

/-- The environment outcomes consumed by one `listen()` call, in the order the
code consults them: `SocketAddr::from_url`, then `socket2::Socket::new` /
`setup_sokcet2` (create, configure, bind), then `socket.local_addr().port()`
on the bound socket, then `socket.listen(1024)`. -/
structure ListenEnv where
  resolved : Except TunnelError SockAddr
  socketSetup : Except TunnelError Unit
  osPort : Nat
  listenStep : Except TunnelError Unit
deriving Repr, DecidableEq

/-- `WSTunnelListener::listen(&mut self)`: resolve the URL, create/configure/
bind the socket, overwrite the URL's port with the bound socket's local port,
then start listening. Returns the updated listener together with the result;
a failure before the `set_port` call leaves the listener unchanged. -/
def WSTunnelListener.listen (self : WSTunnelListener) (env : ListenEnv) :
    WSTunnelListener × Except TunnelError Unit :=
  match env.resolved with
  | .error e => (self, .error e)
  | .ok _ =>
    match env.socketSetup with
    | .error e => (self, .error e)
    | .ok _ =>
      let self := { self with addr := self.addr.set_port env.osPort }
      match env.listenStep with
      | .error e => (self, .error e)
      | .ok _ => ({ self with listener := some env.osPort }, .ok ())

/-- `WSTunnelListener::local_url(&self)`: a clone of the stored URL. -/
def WSTunnelListener.local_url (self : WSTunnelListener) : Url :=
  self.addr

/-- One iteration's worth of events seen by the `accept()` loop: either the
raw TCP-level `listener.accept()` fails, or it yields a raw connection on
which `try_accept` (the optional TLS upgrade plus the WebSocket upgrade)
either fails or produces a tunnel (represented by an identifier). -/
inductive AcceptEvent where
  | tcpError (e : TunnelError)
  | handshakeError (e : TunnelError)
  | tunnel (t : Nat)
deriving Repr, DecidableEq

/-- The possible outcomes of an `accept()` call on a finite event trace. -/
inductive AcceptOutcome where
  /-- `self.listener.as_ref().unwrap()` on `None`: the call aborts at once. -/
  | panicked
  /-- the loop consumed every event and is still awaiting the next connection -/
  | blocked
  /-- the loop returned to the caller -/
  | returned (r : Except TunnelError Nat)
deriving Repr, DecidableEq

/-- The body of `accept()`'s `loop`: a TCP-level accept error propagates via
`?`; a `try_accept` error is logged and the loop `continue`s; a successful
`try_accept` returns the tunnel. -/
def acceptLoop : List AcceptEvent → AcceptOutcome
  | [] => .blocked
  | .tcpError e :: _ => .returned (.error e)
  | .handshakeError _ :: rest => acceptLoop rest
  | .tunnel t :: _ => .returned (.ok t)

/-- `WSTunnelListener::accept(&mut self)` over a finite event trace: the first
action of the loop body unwraps `self.listener`, so an unbound listener aborts
immediately; otherwise the loop runs. `accept` never writes any field of
`self`, which the returned state records. -/
def WSTunnelListener.accept (self : WSTunnelListener)
    (events : List AcceptEvent) : WSTunnelListener × AcceptOutcome :=
  match self.listener with
  | none => (self, .panicked)
  | some _ => (self, acceptLoop events)

/-- `IpVersion`: the connector's address-family preference. -/
inductive IpVersion where
  | V4
  | V6
  | Both
deriving Repr, DecidableEq

/-- `pub struct WSTunnelConnector { addr: url::Url, ip_version: IpVersion }` -/
structure WSTunnelConnector where
  addr : Url
  ip_version : IpVersion
deriving Repr, DecidableEq

/-- `WSTunnelConnector::new(addr)` -/
def WSTunnelConnector.new (addr : Url) : WSTunnelConnector :=
  { addr := addr, ip_version := .Both }

/-- The environment outcomes consumed by one `connect()` call:
`SocketAddr::from_url` and then `client_builder.connect()` (the TLS handshake,
when secure, and the WebSocket client handshake; a produced tunnel is
represented by an identifier). -/
structure ConnectEnv where
  resolved : Except TunnelError SockAddr
  handshake : Except TunnelError Nat
deriving Repr, DecidableEq

/-- `WSTunnelConnector::connect(&mut self)`: classify the scheme, resolve the
address, then perform the (possibly TLS-wrapped) client handshake; the first
failure propagates via `?` and there is no loop or retry anywhere in the body.
`connect` never writes any field of `self`, which the returned state records. -/
def WSTunnelConnector.connect (self : WSTunnelConnector) (env : ConnectEnv) :
    WSTunnelConnector × Except TunnelError Nat :=
  match is_wss self.addr with
  | .error e => (self, .error e)
  | .ok _ =>
    match env.resolved with
    | .error e => (self, .error e)
    | .ok _ =>
      match env.handshake with
      | .error e => (self, .error e)
      | .ok t => (self, .ok t)

/-- `WSTunnelConnector::remote_url(&self)` -/
def WSTunnelConnector.remote_url (self : WSTunnelConnector) : Url :=
  self.addr

/-- C1: scheme classification is a pure total function: scheme "ws" classifies
as insecure mode, "wss" as secure mode, and every other scheme fails with an
`InvalidProtocol` error carrying the offending scheme string. -/
theorem is_wss_classification (addr : Url) :
    (addr.scheme = "ws" → is_wss addr = .ok false) ∧
    (addr.scheme = "wss" → is_wss addr = .ok true) ∧
    (addr.scheme ≠ "ws" → addr.scheme ≠ "wss" →
      is_wss addr = .error (.InvalidProtocol addr.scheme)) := by
  unfold is_wss
  refine ⟨fun h => ?_, fun h => ?_, fun h1 h2 => ?_⟩
  · rw [h]
    rfl
  · rw [h]
    rfl
  · split
    · simp_all
    · simp_all
    · rfl

/-- C1 witness: classification evaluated on concrete schemes. -/
theorem is_wss_classification_witness :
    is_wss ⟨"ws", "example.com", some 80⟩ = .ok false ∧
    is_wss ⟨"wss", "example.com", some 443⟩ = .ok true ∧
    is_wss ⟨"tcp", "example.com", some 80⟩ = .error (.InvalidProtocol "tcp") :=
  ⟨(is_wss_classification _).1 rfl,
   (is_wss_classification _).2.1 rfl,
   (is_wss_classification _).2.2 (by decide) (by decide)⟩

/-- C2: encoding any packet to an outbound binary transport message and
mapping that message back through the inbound mapper yields a packet whose
payload bytes are byte-identical to the original payload. -/
theorem ws_codec_round_trip (p : ZCPacket) (m : Message)
    (h : sink_from_zc_packet (E := TunnelError) p = .ok m) :
    ∃ q : ZCPacket, map_from_ws_message (.ok m) = some (.ok q) ∧
      q.tunnel_payload_bytes = p.tunnel_payload_bytes := by
  have hm : m = .binary p.tunnel_payload_bytes := by
    simpa [sink_from_zc_packet] using h.symm
  subst hm
  exact ⟨ZCPacket.new_from_buf p.tunnel_payload_bytes .DummyTunnel, rfl, rfl⟩

/-- C2 witness: the round trip evaluated on a concrete three-byte packet. -/
theorem ws_codec_round_trip_witness :
    ∃ q : ZCPacket, map_from_ws_message (.ok (.binary [1, 2, 3])) = some (.ok q) ∧
      q.tunnel_payload_bytes =
        ZCPacket.tunnel_payload_bytes ⟨[1, 2, 3], .DummyTunnel⟩ :=
  ws_codec_round_trip ⟨[1, 2, 3], .DummyTunnel⟩ (.binary [1, 2, 3]) rfl

/-- C3: in the accept loop, a per-connection handshake failure never
terminates the loop or surfaces to the caller (the loop state is exactly what
it would be without that event, and a trace of handshake failures alone never
returns), while a raw TCP-level accept failure propagates immediately. -/
theorem ws_accept_loop_isolation :
    (∀ (e : TunnelError) (rest : List AcceptEvent),
      acceptLoop (.handshakeError e :: rest) = acceptLoop rest) ∧
    (∀ (e : TunnelError) (rest : List AcceptEvent),
      acceptLoop (.tcpError e :: rest) = .returned (.error e)) ∧
    (∀ events : List AcceptEvent,
      (∀ ev ∈ events, ∃ e, ev = AcceptEvent.handshakeError e) →
      acceptLoop events = .blocked) := by
  refine ⟨fun e rest => rfl, fun e rest => rfl, fun events h => ?_⟩
  induction events with
  | nil => rfl
  | cons ev rest ih =>
    obtain ⟨e, rfl⟩ := h ev (List.mem_cons_self _ _)
    show acceptLoop rest = .blocked
    exact ih fun x hx => h x (List.mem_cons_of_mem _ hx)

/-- C3 witness: a trace consisting of one handshake failure leaves the loop
still accepting (not returned). -/
theorem ws_accept_loop_isolation_witness :
    acceptLoop [.handshakeError (.InvalidPacket "garbage")] = .blocked :=
  ws_accept_loop_isolation.2.2 [.handshakeError (.InvalidPacket "garbage")]
    (by
      intro ev hev
      simp only [List.mem_singleton] at hev
      exact ⟨_, hev⟩)

/-- C4: a received close frame maps to end-of-sequence (`none`), never to an
error value: the packet sequence of a trace ending in a close frame is exactly
the packet sequence of the trace before it — the sequence simply ends. -/
theorem ws_close_ends_sequence :
    (∀ (pre : List (Except WsError Message)) (code : Option Nat) (reason : String),
      wsStreamToPackets (pre ++ [.ok (.close code reason)]) = wsStreamToPackets pre) ∧
    (∀ (code : Option Nat) (reason : String),
      map_from_ws_message (.ok (.close code reason)) = none) := by
  refine ⟨fun pre code reason => ?_, fun code reason => rfl⟩
  induction pre with
  | nil => rfl
  | cons item rest ih =>
    cases h : map_from_ws_message item with
    | none => simp only [List.cons_append, wsStreamToPackets, h, List.append_eq, ih]
    | some r => simp only [List.cons_append, wsStreamToPackets, h, List.append_eq, ih]

/-- C5: an inbound item whose transport-level read failed maps to exactly one
yielded error wrapping the underlying failure — not a packet, not
end-of-sequence, and no other error variant. -/
theorem ws_read_error_wraps (e : WsError) :
    map_from_ws_message (.error e) = some (.error (.WebSocketError e)) :=
  rfl

/-- C6: a successfully received message that is neither a close frame nor
binary maps to an `InvalidPacket` error carrying its description; binary
messages (and only those) are converted into packets and yielded. -/
theorem ws_nonbinary_invalid_packet :
    (∀ m : Message, m.is_close = false → m.is_binary = false →
      map_from_ws_message (.ok m) = some (.error (.InvalidPacket m.describe))) ∧
    (∀ payload : List Nat, map_from_ws_message (.ok (.binary payload)) =
      some (.ok (ZCPacket.new_from_buf payload .DummyTunnel))) := by
  refine ⟨fun m hc hb => ?_, fun payload => rfl⟩
  simp [map_from_ws_message, hc, hb]

/-- C6 witness: a text frame is rejected as `InvalidPacket` with its
description. -/
theorem ws_nonbinary_invalid_packet_witness :
    map_from_ws_message (.ok (.text "hello")) =
      some (.error (.InvalidPacket (Message.describe (.text "hello")))) :=
  ws_nonbinary_invalid_packet.1 (.text "hello") rfl rfl

/-- C7: if a listener is constructed on port 0 and `listen()` succeeds, its
advertised local endpoint carries the OS-assigned port of the bound socket,
which (being nonzero, as the OS guarantees for a bound socket) replaces 0. -/
theorem ws_listen_ephemeral_port (self : WSTunnelListener) (env : ListenEnv)
    (hport : self.addr.port = some 0)
    (hok : (self.listen env).2 = .ok ())
    (hos : env.osPort ≠ 0) :
    (self.listen env).1.local_url.port = some env.osPort ∧
    (self.listen env).1.local_url.port ≠ some 0 := by
  obtain ⟨res, setup, osPort, lstep⟩ := env
  rcases res with e | a
  · simp [WSTunnelListener.listen] at hok
  rcases setup with e | u
  · simp [WSTunnelListener.listen] at hok
  rcases lstep with e | u2
  · simp [WSTunnelListener.listen] at hok
  · refine ⟨?_, ?_⟩
    · simp [WSTunnelListener.listen, WSTunnelListener.local_url, Url.set_port]
    · simpa [WSTunnelListener.listen, WSTunnelListener.local_url,
        Url.set_port] using hos

/-- C7 witness: a listener on `ws://0.0.0.0:0` whose bound socket got OS port
25556 advertises port 25556, not 0. -/
theorem ws_listen_ephemeral_port_witness :
    ((WSTunnelListener.new ⟨"ws", "0.0.0.0", some 0⟩).listen
        ⟨.ok ⟨true, 0⟩, .ok (), 25556, .ok ()⟩).1.local_url.port = some 25556 ∧
    ((WSTunnelListener.new ⟨"ws", "0.0.0.0", some 0⟩).listen
        ⟨.ok ⟨true, 0⟩, .ok (), 25556, .ok ()⟩).1.local_url.port ≠ some 0 :=
  ws_listen_ephemeral_port _ _ rfl rfl (by decide)

/-- C8: `connect()` is single-shot and independent: the connector state is
never mutated, a failure at the scheme, resolution, or handshake stage is
returned immediately as that stage's error, and a subsequent attempt from the
returned state behaves exactly as a fresh attempt on the stored endpoint. -/
theorem ws_connect_single_shot (self : WSTunnelConnector) (env : ConnectEnv) :
    ((self.connect env).1 = self) ∧
    (∀ e, is_wss self.addr = .error e → (self.connect env).2 = .error e) ∧
    (∀ b e, is_wss self.addr = .ok b → env.resolved = .error e →
      (self.connect env).2 = .error e) ∧
    (∀ b a e, is_wss self.addr = .ok b → env.resolved = .ok a →
      env.handshake = .error e → (self.connect env).2 = .error e) ∧
    (∀ env2, ((self.connect env).1).connect env2 = self.connect env2) := by
  have hstate : ∀ (s : WSTunnelConnector) (ev : ConnectEnv), (s.connect ev).1 = s := by
    intro s ev
    unfold WSTunnelConnector.connect
    rcases is_wss s.addr with e | b
    · rfl
    rcases ev.resolved with e1 | a
    · rfl
    rcases ev.handshake with e2 | t <;> rfl
  refine ⟨hstate self env, fun e hw => ?_, fun b e hw hr => ?_,
    fun b a e hw hr hh => ?_, fun env2 => by rw [hstate]⟩
  · simp [WSTunnelConnector.connect, hw]
  · simp [WSTunnelConnector.connect, hw, hr]
  · simp [WSTunnelConnector.connect, hw, hr, hh]

/-- C8 witness: a connector whose URL has an unknown scheme fails that connect
call with `InvalidProtocol`, evaluated on concrete inputs. -/
theorem ws_connect_single_shot_witness :
    ((WSTunnelConnector.new ⟨"tcp", "example.com", some 80⟩).connect
        ⟨.ok ⟨true, 80⟩, .ok 1⟩).2 = .error (.InvalidProtocol "tcp") :=
  (ws_connect_single_shot _ _).2.1 _ rfl

/-- C9: calling `accept()` while the listener holds no bound socket aborts at
once as a programmer error: it neither ends up waiting for events nor returns
any value to the caller, whatever the event trace. -/
theorem ws_accept_unbound_aborts (self : WSTunnelListener)
    (events : List AcceptEvent) (h : self.listener = none) :
    (self.accept events).2 = .panicked ∧
    (self.accept events).2 ≠ .blocked ∧
    ∀ r, (self.accept events).2 ≠ .returned r := by
  simp [WSTunnelListener.accept, h]

/-- C9 witness: a freshly constructed (never-listened) listener aborts on
`accept`, evaluated on a concrete listener. -/
theorem ws_accept_unbound_aborts_witness :
    ((WSTunnelListener.new ⟨"ws", "0.0.0.0", some 25556⟩).accept []).2 =
      .panicked :=
  (ws_accept_unbound_aborts _ [] rfl).1

/-- C10: `listen()` never changes the URL's scheme or host; whenever it gets
past socket setup it overwrites the URL's port with the bound socket's local
port regardless of the configured value; `accept()` mutates nothing; and
`local_url()` returns the stored URL unchanged. -/
theorem ws_listen_frame (self : WSTunnelListener) (env : ListenEnv) :
    ((self.listen env).1.addr.scheme = self.addr.scheme) ∧
    ((self.listen env).1.addr.host = self.addr.host) ∧
    (∀ a, env.resolved = .ok a → env.socketSetup = .ok () →
      (self.listen env).1.addr.port = some env.osPort) ∧
    (∀ events, (self.accept events).1 = self) ∧
    (self.local_url = self.addr) := by
  obtain ⟨res, setup, osPort, lstep⟩ := env
  refine ⟨?_, ?_, fun a hr hs => ?_, fun events => ?_, rfl⟩
  · rcases res with e | a
    · rfl
    rcases setup with e | u
    · rfl
    rcases lstep with e | u2 <;>
      simp [WSTunnelListener.listen, Url.set_port]
  · rcases res with e | a
    · rfl
    rcases setup with e | u
    · rfl
    rcases lstep with e | u2 <;>
      simp [WSTunnelListener.listen, Url.set_port]
  · rcases res with e | a2
    · exact absurd hr (by simp)
    rcases setup with e | u
    · exact absurd hs (by simp)
    rcases lstep with e | u2 <;>
      simp [WSTunnelListener.listen, Url.set_port]
  · cases h : self.listener <;> simp [WSTunnelListener.accept, h]

/-- C10 witness: a listener configured with nonzero port 8080 still has its
port overwritten to the bound socket's port 9999 by `listen()`. -/
theorem ws_listen_frame_witness :
    ((WSTunnelListener.new ⟨"wss", "example.com", some 8080⟩).listen
        ⟨.ok ⟨false, 8080⟩, .ok (), 9999, .ok ()⟩).1.addr.port = some 9999 :=
  (ws_listen_frame _ _).2.2.1 ⟨false, 8080⟩ rfl rfl

end EasyTier
